import Mathlib

/-!
# VkGetNameOfGPU: the initialisation sequence of `Code/Demo.cpp`

A shallow embedding of `Demo::prepare` and of the four member functions it
calls (`prepare_console`, `prepare_window`, `prepare_instance`,
`prepare_physical_device`).

The program is a sequence of calls into Win32 and Vulkan.  What those calls
answer is not decided by the program, so the answers are collected in an
environment `Env`; what the program does with them is recorded in a log of
`Event`s (one per external call, in program order) and in the fields of the
`Demo` object.  A member function either returns (`Outcome.returned`) or ends
the process (`Outcome.exited`); in both cases the outcome carries the object
as it is at that moment and the events of the function up to that moment.
-/

namespace VkGetNameOfGPU

/-! ## Handles, results and records of the two APIs -/

/-- A `VkResult` is a signed 32-bit enumeration; only comparisons with
constants are made on it. -/
abbrev VkResult := Int

def VK_SUCCESS : VkResult := 0
def VK_ERROR_OUT_OF_HOST_MEMORY : VkResult := -1
def VK_ERROR_EXTENSION_NOT_PRESENT : VkResult := -7
def VK_ERROR_INCOMPATIBLE_DRIVER : VkResult := -9

/-- A `VkBool32`: zero is false, anything else is true. -/
abbrev VkBool32 := Nat

/-- A window handle; `0` is `NULL`. -/
abbrev HWND := Nat

abbrev VkInstance := Nat

abbrev VkPhysicalDevice := Nat

/-- The value of `VK_KHR_SWAPCHAIN_EXTENSION_NAME` in the Vulkan headers. -/
def VK_KHR_SWAPCHAIN_EXTENSION_NAME : String := "VK_KHR_swapchain"

/-- The one field of `VkLayerProperties` that the program reads.  A `String`
stands for the characters of a C string before its terminator. -/
structure VkLayerProperties where
  layerName : String
deriving DecidableEq, Repr

/-- The one field of `VkExtensionProperties` that the program reads. -/
structure VkExtensionProperties where
  extensionName : String
deriving DecidableEq, Repr

/-- The one field of `VkPhysicalDeviceProperties` that the program reads. -/
structure VkPhysicalDeviceProperties where
  deviceName : String
deriving DecidableEq, Repr

structure POINT where
  x : Int
  y : Int
deriving DecidableEq, Repr

structure RECT where
  left : Int
  top : Int
  right : Int
  bottom : Int
deriving DecidableEq, Repr

/-- The fields of `VkInstanceCreateInfo` that `prepare_instance` fills in; the
others are zero because of the `= {}` initialiser.  `ppEnabledLayerNames` is
the content of the array the pointer refers to at the time of the call. -/
structure VkInstanceCreateInfo where
  sType : String
  enabledLayerCount : Nat
  ppEnabledLayerNames : List (Option String)
deriving DecidableEq, Repr

/-! ## The `Demo` object -/

/-- The members of `Demo` that `Demo.cpp` reads or writes.

`enabled_layers` and `extension_names` are member arrays of C-string pointers:
slot `i` is `getD i none`, and `none` is a null pointer.  The number of slots
of each array is fixed in `Demo.h`, which is not among the sources; for
`extension_names`, the one array written at a computed index, it is the
parameter `Env.extension_names_slots`. -/
structure Demo where
  name : String
  window : HWND
  width : Int
  height : Int
  minsize : POINT
  is_minimized : Bool
  validate : Bool
  enabled_layer_count : Nat
  enabled_layers : List (Option String)
  inst : VkInstance
  gpu : VkPhysicalDevice
  enabled_extension_count : Nat
  extension_names : List (Option String)
deriving DecidableEq, Repr

/-- The program state seen by `prepare`: the file-level variable `firstInit`
and the `Demo` object. -/
structure Program where
  firstInit : Bool
  demo : Demo
deriving DecidableEq, Repr

/-- The four member functions called by `prepare`. -/
inductive Step where
  | prepare_console
  | prepare_window
  | prepare_instance
  | prepare_physical_device
deriving DecidableEq, Repr

/-- What the program does that can be seen from outside, plus the entry into
each member function (with the object as it is on entry).  `capacity` is
`none` when an enumeration is called with a null array and `some n` when it is
called with an array of `n` elements. -/
inductive Event where
  | enter (step : Step) (d : Demo)
  | AllocConsole
  | GetCurrentProcessId
  | AttachConsole (pid : Nat)
  | freopen_s (file mode stream : String)
  | SetConsoleTitle (title : String)
  | GetConsoleWindow
  | MoveWindow (w : HWND) (x y width height : Int) (repaint : Bool)
  | LoadIcon (icon : String)
  | LoadCursor (cursor : String)
  | GetStockObject (object : String)
  | RegisterClassEx (className : String)
  | AdjustWindowRect (r : RECT)
  | CreateWindowEx (className windowName : String) (x y width height : Int)
  | GetSystemMetrics (metric : String)
  | printf (output : String)
  | fflush
  | exit (status : Int)
  | ERR_EXIT (msg caption : String)
  | vkEnumerateInstanceLayerProperties (capacity : Option Nat)
  | vkCreateInstance (info : VkInstanceCreateInfo)
  | vkEnumeratePhysicalDevices (inst : VkInstance) (capacity : Option Nat)
  | vkGetPhysicalDeviceProperties (gpu : VkPhysicalDevice)
  | SetWindowText (window : HWND) (text : String)
  | vkEnumerateDeviceExtensionProperties (gpu : VkPhysicalDevice) (capacity : Option Nat)
deriving DecidableEq, Repr

/-- How a function ends: it returns to its caller, or the process is ended
from inside it. -/
inductive Outcome (σ : Type) where
  | returned (s : σ) (log : List Event)
  | exited (s : σ) (log : List Event)
deriving DecidableEq, Repr

namespace Outcome

def log {σ : Type} : Outcome σ → List Event
  | returned _ l => l
  | exited _ l => l

def state {σ : Type} : Outcome σ → σ
  | returned s _ => s
  | exited s _ => s

def isReturned {σ : Type} : Outcome σ → Bool
  | returned _ _ => true
  | exited _ _ => false

/-- The same outcome after the events `pre`. -/
def after {σ : Type} (pre : List Event) : Outcome σ → Outcome σ
  | returned s l => returned s (pre ++ l)
  | exited s l => exited s (pre ++ l)

/-- Sequencing of two statements: the second one runs only when the first one
returns, on the state the first one left, and its events follow those of the
first one. -/
def andThen {σ : Type} (o : Outcome σ) (k : σ → Outcome σ) : Outcome σ :=
  match o with
  | returned s l => after l (k s)
  | exited s l => exited s l

end Outcome

/-! ## The environment -/

/-- The answers of one count-then-fill pair of calls to a Vulkan enumeration
function.  The first call (null array) stores `items.length` in the count
variable and returns `countResult`; the second call (array of that capacity)
fills the array with `items` and returns `fillResult`.  Both calls of a pair
see the same list.  The count is a `uint32_t`, so `items.length < 2 ^ 32` for
every list a driver can report.  The code keeps neither `VkResult`. -/
structure Enumeration (α : Type) where
  countResult : VkResult
  fillResult : VkResult
  items : List α

/-- The answers of the external calls.

* `APP_NAME_STR_LEN` is a constant of `Demo.h`, which is not among the sources.
* `extension_names_slots` is the number of elements of the member array
  `extension_names`, declared in `Demo.h` as well (the `sizeof` at line 537
  shows that it is an array of fixed size).
* `RegisterClassEx` is the `ATOM` returned for a class name (`0` on failure).
* `vkCreateInstance` gives the `VkResult` and the handle the call stores in
  `inst` (`none`: the call leaves `inst` as it is). -/
structure Env where
  APP_NAME_STR_LEN : Nat
  extension_names_slots : Nat
  GetCurrentProcessId : Nat
  GetConsoleWindow : HWND
  RegisterClassEx : String → Nat
  AdjustWindowRect : RECT → RECT
  CreateWindowEx : String → String → Int → Int → Int → Int → HWND
  GetSystemMetrics : String → Int
  instanceLayers : Enumeration VkLayerProperties
  vkCreateInstance : VkInstanceCreateInfo → VkResult × Option VkInstance
  physicalDevices : VkInstance → Enumeration VkPhysicalDevice
  vkGetPhysicalDeviceProperties : VkPhysicalDevice → VkPhysicalDeviceProperties
  deviceExtensions : VkPhysicalDevice → Enumeration VkExtensionProperties

/-! ## Library functions used by the code -/

/-- The comparison of `strcmp` on the characters before the terminator: zero
when the two strings are equal, negative or positive after the first
difference (the end of a string counts as the smallest character). -/
def strcmpChars : List Char → List Char → Int
  | [], [] => 0
  | [], _ :: _ => -1
  | _ :: _, [] => 1
  | a :: as, b :: bs =>
    if a = b then strcmpChars as bs else if a.toNat < b.toNat then -1 else 1

def strcmp (a b : String) : Int :=
  strcmpChars a.data b.data

/-- The C string left in the destination by `strncpy(dst, src, n)`: at most
`n` characters of `src`. -/
def strncpy (src : String) (n : Nat) : String :=
  String.mk (src.data.take n)

/-- Assignment `array[0] = v` to a member array of pointers.  Index `0` is
inside every array. -/
def setFirstSlot (array : List (Option String)) (v : Option String) :
    List (Option String) :=
  match array with
  | [] => [v]
  | _ :: rest => v :: rest

/-- Assignment `array[i] = v` to a member array of `slots` pointers, with no
bound check, as in the source.  When `i < slots` slot `i` is written.  When
`slots ≤ i` the write is outside the array: no slot of the array changes, and
the model does not say which memory the write changes. -/
def setSlot (slots : Nat) (array : List (Option String)) (i : Nat) (v : Option String) :
    List (Option String) :=
  if i < slots then (array ++ List.replicate (i + 1 - array.length) none).set i v
  else array

/-- Modelled from the spec: the macro `ERR_EXIT(err_msg, err_class)` is defined
in `Demo.h`, which is not among the sources.  By the spec, error handling is
to "print a human-readable message naming the failed driver call, then
terminate the process": the message is shown under the given caption and the
process ends. -/
def ERR_EXIT {σ : Type} (msg caption : String) (s : σ) (log : List Event) : Outcome σ :=
  Outcome.exited s (log ++ [Event.ERR_EXIT msg caption])

/-! ## `Demo::prepare_console` -/

/-- `Demo::prepare_console` (lines 45-90): allocate a console, attach it,
redirect the three standard streams, set its title and move it.  No answer of
these calls is tested. -/
def prepare_console (env : Env) (d : Demo) : Outcome Demo :=
  Outcome.returned d
    [Event.enter Step.prepare_console d,
     Event.AllocConsole,
     Event.GetCurrentProcessId,
     Event.AttachConsole env.GetCurrentProcessId,
     Event.freopen_s "conin$" "r" "stdin",
     Event.freopen_s "conout$" "w" "stdout",
     Event.freopen_s "conout$" "w" "stderr",
     Event.SetConsoleTitle "Console window",
     Event.GetConsoleWindow,
     Event.MoveWindow env.GetConsoleWindow 0 0 640 (360 + 40) true]

/-! ## `Demo::prepare_window` -/

def registerFailedText : String :=
  "Unexpected error trying to start the application!\n"

def windowFailedText : String :=
  "Cannot create a window in which to draw!\n"

/-- `Demo::prepare_window` (lines 92-176).  The style constants passed to
`AdjustWindowRect` and `CreateWindowEx` are fixed and left out of the events;
the width and height computed from the adjusted rectangle are not reduced to
32 bits. -/
def prepare_window (env : Env) (d : Demo) : Outcome Demo :=
  -- strncpy(name, "Loading...", APP_NAME_STR_LEN);
  let d1 := { d with name := strncpy "Loading..." env.APP_NAME_STR_LEN }
  -- the fields of win_class, then RegisterClassEx(&win_class)
  let log1 :=
    [Event.enter Step.prepare_window d,
     Event.LoadIcon "IDI_APPLICATION",
     Event.LoadCursor "IDC_ARROW",
     Event.GetStockObject "WHITE_BRUSH",
     Event.LoadIcon "IDI_WINLOGO",
     Event.RegisterClassEx d1.name]
  if env.RegisterClassEx d1.name = 0 then
    Outcome.exited d1 (log1 ++ [Event.printf registerFailedText, Event.fflush, Event.exit 1])
  else
    -- RECT wr = { 0, 0, width, height }; AdjustWindowRect(&wr, ...);
    let wr0 : RECT := { left := 0, top := 0, right := d1.width, bottom := d1.height }
    let wr := env.AdjustWindowRect wr0
    let log2 := log1 ++
      [Event.AdjustWindowRect wr0,
       Event.CreateWindowEx d1.name d1.name 640 0 (wr.right - wr.left) (wr.bottom - wr.top)]
    let d2 := { d1 with
      window := env.CreateWindowEx d1.name d1.name 640 0 (wr.right - wr.left) (wr.bottom - wr.top) }
    if d2.window = 0 then
      Outcome.exited d2 (log2 ++ [Event.printf windowFailedText, Event.fflush, Event.exit 1])
    else
      let d3 := { d2 with
        minsize :=
          { x := env.GetSystemMetrics "SM_CXMINTRACK",
            y := env.GetSystemMetrics "SM_CYMINTRACK" + 1 } }
      Outcome.returned d3
        (log2 ++ [Event.GetSystemMetrics "SM_CXMINTRACK", Event.GetSystemMetrics "SM_CYMINTRACK"])

/-! ## `Demo::prepare_instance` -/

def instance_validation_layer : String := "VK_LAYER_KHRONOS_validation"

def validationMissingText : String :=
  "vkEnumerateInstanceLayerProperties failed to find required validation layer.\n\n" ++
  "Please look at the Getting Started guide for additional information.\n"

def incompatibleDriverText : String :=
  "Cannot find a compatible Vulkan installable client driver (ICD).\n\n" ++
  "Please look at the Getting Started guide for additional information.\n"

def extensionNotPresentText : String :=
  "Cannot find a specified extension library.\n" ++
  "Make sure your layers path is set appropriately.\n"

def createInstanceFailedText : String :=
  "vkCreateInstance failed.\n\n" ++
  "Do you have a compatible Vulkan installable client driver (ICD) installed?\n" ++
  "Please look at the Getting Started guide for additional information.\n"

/-- The loop of lines 273-282 over `instance_layers[j]`, `j` from `0`: the flag
becomes `1` at the first layer whose name compares equal, and the loop stops
there. -/
def findValidationLayer (wanted : String) : List VkLayerProperties → VkBool32 → VkBool32
  | [], validation_found => validation_found
  | l :: rest, validation_found =>
    if strcmp wanted l.layerName = 0 then 1
    else findValidationLayer wanted rest validation_found

/-- The locals `validation_found` and `total_instance_layers`, the object and
the events at line 308, inside `if (validate)`. -/
structure LayerScan where
  validation_found : VkBool32
  total_instance_layers : Nat
  demo : Demo
  log : List Event

/-- Lines 225-307 of `prepare_instance`: count the layers and, when there is
at least one, fetch them, look for the validation layer and set
`enabled_layer_count` and `enabled_layers[0]`. -/
def scanInstanceLayers (env : Env) (d : Demo) : LayerScan :=
  let log1 := [Event.vkEnumerateInstanceLayerProperties none]
  let total_instance_layers := env.instanceLayers.items.length
  if 0 < total_instance_layers then
    let log2 := log1 ++ [Event.vkEnumerateInstanceLayerProperties (some total_instance_layers)]
    let validation_found :=
      findValidationLayer instance_validation_layer env.instanceLayers.items 0
    let d1 := { d with enabled_layer_count := 0 }
    let d2 :=
      if validation_found ≠ 0 then
        { d1 with
          enabled_layer_count := 1
          enabled_layers := setFirstSlot d1.enabled_layers (some instance_validation_layer) }
      else d1
    { validation_found := validation_found
      total_instance_layers := total_instance_layers
      demo := d2
      log := log2 }
  else
    { validation_found := 0
      total_instance_layers := total_instance_layers
      demo := d
      log := log1 }

/-- Lines 220-321 of `prepare_instance`: the block `if (validate) { ... }`,
which ends in `ERR_EXIT` when
`!validation_found || total_instance_layers <= 0`. -/
def checkValidation (env : Env) (d : Demo) : Outcome Demo :=
  if d.validate then
    let r := scanInstanceLayers env d
    if r.validation_found = 0 ∨ r.total_instance_layers ≤ 0 then
      ERR_EXIT validationMissingText "vkCreateInstance Failure" r.demo r.log
    else
      Outcome.returned r.demo r.log
  else
    Outcome.returned d []

/-- The create-info built at lines 382-385. -/
def inst_info (d : Demo) : VkInstanceCreateInfo :=
  { sType := "VK_STRUCTURE_TYPE_INSTANCE_CREATE_INFO"
    enabledLayerCount := d.enabled_layer_count
    ppEnabledLayerNames := d.enabled_layers }

/-- Lines 382-424 of `prepare_instance`: call `vkCreateInstance` and test its
result. -/
def createInstance (env : Env) (d : Demo) : Outcome Demo :=
  let log1 := [Event.vkCreateInstance (inst_info d)]
  let err := (env.vkCreateInstance (inst_info d)).1
  let d1 :=
    match (env.vkCreateInstance (inst_info d)).2 with
    | some handle => { d with inst := handle }
    | none => d
  if err = VK_ERROR_INCOMPATIBLE_DRIVER then
    ERR_EXIT incompatibleDriverText "vkCreateInstance Failure" d1 log1
  else if err = VK_ERROR_EXTENSION_NOT_PRESENT then
    ERR_EXIT extensionNotPresentText "vkCreateInstance Failure" d1 log1
  else if err ≠ 0 then
    ERR_EXIT createInstanceFailedText "vkCreateInstance Failure" d1 log1
  else
    Outcome.returned d1 log1

/-- `Demo::prepare_instance` (lines 178-425): `is_minimized = false`, then the
validation block, then the creation of the instance. -/
def prepare_instance (env : Env) (d : Demo) : Outcome Demo :=
  ((Outcome.returned { d with is_minimized := false }
      [Event.enter Step.prepare_instance d]).andThen
    (checkValidation env)).andThen
    (createInstance env)

/-! ## `Demo::prepare_physical_device` -/

def zeroDevicesText : String :=
  "vkEnumeratePhysicalDevices reported zero accessible devices.\n\n" ++
  "Do you have a compatible Vulkan installable client driver (ICD) installed?\n" ++
  "Please look at the Getting Started guide for additional information.\n"

def swapchainMissingText : String :=
  "vkEnumerateDeviceExtensionProperties failed to find the " ++
  VK_KHR_SWAPCHAIN_EXTENSION_NAME ++
  " extension.\n\nDo you have a compatible Vulkan installable client driver (ICD) installed?\n" ++
  "Please look at the Getting Started guide for additional information.\n"

def foundGpuText : String :=
  "We found a GPU, the name of the GPU is:\n"

/-- The locals and members touched by the loop of lines 557-569. -/
structure ExtensionScan where
  swapchainExtFound : VkBool32
  enabled_extension_count : Nat
  extension_names : List (Option String)
deriving DecidableEq, Repr

/-- The loop of lines 557-569 over `device_extensions[i]`, `i` from `0`, for
an array `extension_names` of `slots` pointers: at every extension whose name
compares equal the flag is set, the name is assigned to
`extension_names[enabled_extension_count]` and the counter (a `uint32_t`) is
incremented.  The loop has no `break` and no bound check: once the counter has
reached `slots` the assignment is outside the array (see `setSlot`). -/
def scanDeviceExtensions (slots : Nat) :
    List VkExtensionProperties → ExtensionScan → ExtensionScan
  | [], acc => acc
  | e :: rest, acc =>
    if strcmp VK_KHR_SWAPCHAIN_EXTENSION_NAME e.extensionName = 0 then
      scanDeviceExtensions slots rest
        { swapchainExtFound := 1
          enabled_extension_count := (acc.enabled_extension_count + 1) % 2 ^ 32
          extension_names :=
            setSlot slots acc.extension_names acc.enabled_extension_count
              (some VK_KHR_SWAPCHAIN_EXTENSION_NAME) }
    else
      scanDeviceExtensions slots rest acc

/-- Lines 529-585 of `prepare_physical_device`: reset the extension members,
enumerate the extensions of `gpu`, scan them, and end in `ERR_EXIT` when the
swapchain extension was not seen. -/
def checkSwapchain (env : Env) (d : Demo) : Outcome Demo :=
  -- enabled_extension_count = 0; memset(extension_names, 0, ...);
  let d1 := { d with enabled_extension_count := 0, extension_names := [] }
  let log1 := [Event.vkEnumerateDeviceExtensionProperties d1.gpu none]
  let device_extension_count := (env.deviceExtensions d1.gpu).items.length
  let start : ExtensionScan :=
    { swapchainExtFound := 0
      enabled_extension_count := d1.enabled_extension_count
      extension_names := d1.extension_names }
  let r :=
    if 0 < device_extension_count then
      scanDeviceExtensions env.extension_names_slots (env.deviceExtensions d1.gpu).items start
    else start
  let log2 :=
    if 0 < device_extension_count then
      log1 ++ [Event.vkEnumerateDeviceExtensionProperties d1.gpu (some device_extension_count)]
    else log1
  let d2 := { d1 with
    enabled_extension_count := r.enabled_extension_count
    extension_names := r.extension_names }
  if r.swapchainExtFound = 0 then
    ERR_EXIT swapchainMissingText "vkCreateInstance Failure" d2 log2
  else
    Outcome.returned d2 log2

/-- Lines 427-518 of `prepare_physical_device`: enumerate the devices, keep
the first one, show and print its name; `ERR_EXIT` when there is none.  The
branch on `gpu_count > 0` is the branch on the reported list being non-empty,
and `physical_devices[0]` is its head. -/
def selectDevice (env : Env) (d : Demo) : Outcome Demo :=
  let log0 :=
    [Event.enter Step.prepare_physical_device d,
     Event.vkEnumeratePhysicalDevices d.inst none]
  match (env.physicalDevices d.inst).items with
  | first :: others =>
    let gpu_count := (first :: others).length
    -- gpu = physical_devices[0];
    let d1 := { d with gpu := first }
    let features := env.vkGetPhysicalDeviceProperties d1.gpu
    Outcome.returned d1
      (log0 ++
        [Event.vkEnumeratePhysicalDevices d.inst (some gpu_count),
         Event.vkGetPhysicalDeviceProperties d1.gpu,
         Event.SetWindowText d1.window features.deviceName,
         Event.printf foundGpuText,
         Event.printf (features.deviceName ++ "\n\n")])
  | [] =>
    ERR_EXIT zeroDevicesText "vkEnumeratePhysicalDevices Failure" d log0

/-- `Demo::prepare_physical_device` (lines 427-586). -/
def prepare_physical_device (env : Env) (d : Demo) : Outcome Demo :=
  (selectDevice env d).andThen (checkSwapchain env)

/-! ## `Demo::prepare` -/

/-- The statements inside `if (firstInit)`, lines 618-647, on the `Demo`
object. -/
def firstInitBody (env : Env) (d : Demo) : Outcome Demo :=
  -- validate = true;
  (((prepare_console env { d with validate := true }).andThen
      -- width = 640; height = 360;
      (fun d1 => prepare_window env { d1 with width := 640, height := 360 })).andThen
      (prepare_instance env)).andThen
      (prepare_physical_device env)

/-- `Demo::prepare` (lines 588-649).  `firstInit` is read once; no statement
of `Demo.cpp` assigns it. -/
def prepare (env : Env) (p : Program) : Outcome Program :=
  if p.firstInit then
    match firstInitBody env p.demo with
    | Outcome.returned d l => Outcome.returned { p with demo := d } l
    | Outcome.exited d l => Outcome.exited { p with demo := d } l
  else
    Outcome.returned p []

/-! ## Reading a log -/

/-- The member functions entered, in order, each with the object as it was on
entry. -/
def entries : List Event → List (Step × Demo)
  | [] => []
  | Event.enter step d :: rest => (step, d) :: entries rest
  | _ :: rest => entries rest

/-- The texts written by `printf`, in order. -/
def printed : List Event → List String
  | [] => []
  | Event.printf output :: rest => output :: printed rest
  | _ :: rest => printed rest

/-- The window titles set by `SetWindowText`, in order. -/
def titles : List Event → List (HWND × String)
  | [] => []
  | Event.SetWindowText w text :: rest => (w, text) :: titles rest
  | _ :: rest => titles rest

/-! ## A machine on which every call succeeds -/

def sampleDemo : Demo :=
  { name := ""
    window := 0
    width := 0
    height := 0
    minsize := { x := 0, y := 0 }
    is_minimized := false
    validate := false
    enabled_layer_count := 0
    enabled_layers := []
    inst := 0
    gpu := 0
    enabled_extension_count := 0
    extension_names := [] }

def sampleProgram : Program :=
  { firstInit := true, demo := sampleDemo }

/-- One validation layer, instance handle `7`, two GPUs `11` and `12`, the
first of which is called `GPU A` and has the swapchain extension. -/
def sampleEnv : Env :=
  { APP_NAME_STR_LEN := 80
    extension_names_slots := 64
    GetCurrentProcessId := 1234
    GetConsoleWindow := 5
    RegisterClassEx := fun _ => 1
    AdjustWindowRect := fun r => r
    CreateWindowEx := fun _ _ _ _ _ _ => 9
    GetSystemMetrics := fun _ => 100
    instanceLayers :=
      { countResult := 0, fillResult := 0
        items := [{ layerName := "VK_LAYER_other" }, { layerName := "VK_LAYER_KHRONOS_validation" }] }
    vkCreateInstance := fun _ => (0, some 7)
    physicalDevices := fun _ => { countResult := 0, fillResult := 0, items := [11, 12] }
    vkGetPhysicalDeviceProperties := fun g =>
      if g = 11 then { deviceName := "GPU A" } else { deviceName := "GPU B" }
    deviceExtensions := fun _ =>
      { countResult := 0, fillResult := 0
        items := [{ extensionName := "VK_KHR_maintenance1" }, { extensionName := "VK_KHR_swapchain" }] } }

/-- The object `sampleDemo` after `validate = true`. -/
def sampleValidating : Demo :=
  { sampleDemo with validate := true }

/-- The machine `sampleEnv` without any Vulkan device. -/
def envNoDevices : Env :=
  { sampleEnv with
    physicalDevices := fun _ => { countResult := 0, fillResult := 0, items := [] } }

/-- The machine `sampleEnv` on which `RegisterClassEx` fails. -/
def envRegisterFails : Env :=
  { sampleEnv with RegisterClassEx := fun _ => 0 }

/-- The machine `sampleEnv` on which the second call of
`vkEnumeratePhysicalDevices`, the one that fills the array, returns
`VK_ERROR_OUT_OF_HOST_MEMORY`. -/
def envFillFails : Env :=
  { sampleEnv with
    physicalDevices := fun _ =>
      { countResult := 0, fillResult := VK_ERROR_OUT_OF_HOST_MEMORY, items := [11, 12] } }

/-! ## Reading messages and failures -/

/-- The name under which an event appears in `Demo.cpp`. -/
def Event.callName : Event → String
  | Event.enter Step.prepare_console _ => "prepare_console"
  | Event.enter Step.prepare_window _ => "prepare_window"
  | Event.enter Step.prepare_instance _ => "prepare_instance"
  | Event.enter Step.prepare_physical_device _ => "prepare_physical_device"
  | Event.AllocConsole => "AllocConsole"
  | Event.GetCurrentProcessId => "GetCurrentProcessId"
  | Event.AttachConsole _ => "AttachConsole"
  | Event.freopen_s _ _ _ => "freopen_s"
  | Event.SetConsoleTitle _ => "SetConsoleTitle"
  | Event.GetConsoleWindow => "GetConsoleWindow"
  | Event.MoveWindow _ _ _ _ _ _ => "MoveWindow"
  | Event.LoadIcon _ => "LoadIcon"
  | Event.LoadCursor _ => "LoadCursor"
  | Event.GetStockObject _ => "GetStockObject"
  | Event.RegisterClassEx _ => "RegisterClassEx"
  | Event.AdjustWindowRect _ => "AdjustWindowRect"
  | Event.CreateWindowEx _ _ _ _ _ _ => "CreateWindowEx"
  | Event.GetSystemMetrics _ => "GetSystemMetrics"
  | Event.printf _ => "printf"
  | Event.fflush => "fflush"
  | Event.exit _ => "exit"
  | Event.ERR_EXIT _ _ => "ERR_EXIT"
  | Event.vkEnumerateInstanceLayerProperties _ => "vkEnumerateInstanceLayerProperties"
  | Event.vkCreateInstance _ => "vkCreateInstance"
  | Event.vkEnumeratePhysicalDevices _ _ => "vkEnumeratePhysicalDevices"
  | Event.vkGetPhysicalDeviceProperties _ => "vkGetPhysicalDeviceProperties"
  | Event.SetWindowText _ _ => "SetWindowText"
  | Event.vkEnumerateDeviceExtensionProperties _ _ => "vkEnumerateDeviceExtensionProperties"

/-- Whether the characters `word` are the first characters of `text`. -/
def beginsWith : List Char → List Char → Bool
  | [], _ => true
  | _ :: _, [] => false
  | a :: as, b :: bs => a == b && beginsWith as bs

/-- Whether the characters `word` occur in `text`, one after the other. -/
def occursIn (word : List Char) : List Char → Bool
  | [] => beginsWith word []
  | c :: rest => beginsWith word (c :: rest) || occursIn word rest

/-- Whether `text` contains `word`. -/
def mentions (text word : String) : Bool :=
  occursIn word.data text.data

/-- A log that ends with a call, a message about it and the end of the
process: `RegisterClassEx` or `CreateWindowEx` followed by the text printed
for it, `fflush` and `exit(1)`, or a call followed by an `ERR_EXIT` whose text
or caption contains the name of that call. -/
def EndsWithMessage (log : List Event) : Prop :=
  (∃ pre name, log = pre ++
    [Event.RegisterClassEx name, Event.printf registerFailedText, Event.fflush, Event.exit 1]) ∨
  (∃ pre className windowName x y w h, log = pre ++
    [Event.CreateWindowEx className windowName x y w h, Event.printf windowFailedText,
     Event.fflush, Event.exit 1]) ∨
  (∃ pre call msg caption, log = pre ++ [call, Event.ERR_EXIT msg caption] ∧
    (mentions msg call.callName = true ∨ mentions caption call.callName = true))

/-- The calls whose answer the code tests for failure, when they fail:
`RegisterClassEx` returning `0`, `CreateWindowEx` returning `NULL`,
`vkCreateInstance` returning a result other than `0`. -/
def failedCall (env : Env) : Event → Bool
  | Event.RegisterClassEx name => decide (env.RegisterClassEx name = 0)
  | Event.CreateWindowEx className windowName x y w h =>
    decide (env.CreateWindowEx className windowName x y w h = 0)
  | Event.vkCreateInstance info => decide ((env.vkCreateInstance info).1 ≠ 0)
  | _ => false

/-- The events that report an error and end the process. -/
def isReport : Event → Bool
  | Event.printf _ => true
  | Event.fflush => true
  | Event.exit _ => true
  | Event.ERR_EXIT _ _ => true
  | _ => false

/-- Whether every failed call of the log is followed by reports only. -/
def fatalAfterFailure (env : Env) : List Event → Bool
  | [] => true
  | e :: rest =>
    if failedCall env e then rest.all isReport else fatalAfterFailure env rest

/-- The machine `env` with every `VkResult` of the three enumeration functions
replaced by `VK_SUCCESS`; the counts and lists are kept. -/
def dropEnumerationResults (env : Env) : Env :=
  { env with
    instanceLayers :=
      { countResult := VK_SUCCESS, fillResult := VK_SUCCESS, items := env.instanceLayers.items }
    physicalDevices := fun i =>
      { countResult := VK_SUCCESS, fillResult := VK_SUCCESS
        items := (env.physicalDevices i).items }
    deviceExtensions := fun g =>
      { countResult := VK_SUCCESS, fillResult := VK_SUCCESS
        items := (env.deviceExtensions g).items } }

/-- An outcome in which every failed call is fatal: a function that returns
has seen no failed call, and in a function that ends the process every failed
call is followed by reports only. -/
def FailuresAreFatal {σ : Type} (env : Env) : Outcome σ → Prop
  | Outcome.returned _ l => ∀ e ∈ l, failedCall env e = false
  | Outcome.exited _ l => fatalAfterFailure env l = true

/-! ## Reading the create-info and the extension scan -/

/-- The create-infos passed to `vkCreateInstance`, in order. -/
def createInfos : List Event → List VkInstanceCreateInfo
  | [] => []
  | Event.vkCreateInstance info :: rest => info :: createInfos rest
  | _ :: rest => createInfos rest

/-- The machine `sampleEnv` whose devices report the swapchain extension
twice, with another extension in between. -/
def envTwoSwapchain : Env :=
  { sampleEnv with
    deviceExtensions := fun _ =>
      { countResult := 0, fillResult := 0
        items :=
          [{ extensionName := "VK_KHR_swapchain" }, { extensionName := "VK_KHR_maintenance1" },
           { extensionName := "VK_KHR_swapchain" }] } }

/-- The block `if (validate) { ... }` of `prepare_instance` as the claim on
its exit test words it: the same statements as `checkValidation`, with the
test `!validation_found` alone in place of
`!validation_found || total_instance_layers <= 0`. -/
def checkValidationFlagOnly (env : Env) (d : Demo) : Outcome Demo :=
  if d.validate then
    let r := scanInstanceLayers env d
    if r.validation_found = 0 then
      ERR_EXIT validationMissingText "vkCreateInstance Failure" r.demo r.log
    else
      Outcome.returned r.demo r.log
  else
    Outcome.returned d []

/-- The machine `envTwoSwapchain` with an array `extension_names` of one
slot. -/
def envOneSlot : Env :=
  { envTwoSwapchain with extension_names_slots := 1 }

/-! ## Lemmas on outcomes and logs -/

theorem Outcome.andThen_eq_returned {σ : Type} (o : Outcome σ) (k : σ → Outcome σ)
    (s : σ) (l : List Event) (h : o.andThen k = Outcome.returned s l) :
    ∃ s1 l1 l2, o = Outcome.returned s1 l1 ∧ k s1 = Outcome.returned s l2 ∧ l = l1 ++ l2 := by
  cases o with
  | returned s1 l1 =>
    cases hk : k s1 with
    | returned s2 l2 =>
      simp [Outcome.andThen, hk, Outcome.after] at h
      exact ⟨s1, l1, l2, rfl, by rw [← h.1]; exact hk, h.2.symm⟩
    | exited s2 l2 => simp [Outcome.andThen, hk, Outcome.after] at h
  | exited s1 l1 => simp [Outcome.andThen] at h

theorem entries_append (a b : List Event) : entries (a ++ b) = entries a ++ entries b := by
  induction a with
  | nil => rfl
  | cons e rest ih => cases e <;> simp [entries, ih]

theorem prepare_window_returned (env : Env) (d d' : Demo) (l : List Event)
    (h : prepare_window env d = Outcome.returned d' l) :
    entries l = [(Step.prepare_window, d)] ∧ d'.validate = d.validate := by
  unfold prepare_window at h
  simp only [] at h
  split at h
  · simp at h
  · split at h
    · simp at h
    · simp only [Outcome.returned.injEq] at h
      obtain ⟨hd, hl⟩ := h
      subst hd hl
      simp [entries]

theorem checkValidation_entries (env : Env) (d : Demo) :
    entries (checkValidation env d).log = [] := by
  unfold checkValidation scanInstanceLayers ERR_EXIT
  simp only []
  split_ifs <;> simp [Outcome.log, entries]

theorem createInstance_entries (env : Env) (d : Demo) :
    entries (createInstance env d).log = [] := by
  unfold createInstance ERR_EXIT
  simp only []
  split_ifs <;> simp [Outcome.log, entries]

theorem prepare_instance_returned (env : Env) (d d' : Demo) (l : List Event)
    (h : prepare_instance env d = Outcome.returned d' l) :
    entries l = [(Step.prepare_instance, d)] := by
  unfold prepare_instance at h
  obtain ⟨s1, l1, l2, h1, h2, rfl⟩ := Outcome.andThen_eq_returned _ _ _ _ h
  obtain ⟨s0, l0, l3, h0, h3, rfl⟩ := Outcome.andThen_eq_returned _ _ _ _ h1
  simp only [Outcome.returned.injEq] at h0
  obtain ⟨rfl, rfl⟩ := h0
  have e1 := checkValidation_entries env { d with is_minimized := false }
  have e2 := createInstance_entries env s1
  rw [h3] at e1
  rw [h2] at e2
  simp only [Outcome.log] at e1 e2
  simp [entries_append, entries, e1, e2]

theorem checkSwapchain_entries (env : Env) (d : Demo) :
    entries (checkSwapchain env d).log = [] := by
  unfold checkSwapchain ERR_EXIT
  simp only []
  split_ifs <;> simp [Outcome.log, entries]

theorem prepare_physical_device_returned (env : Env) (d d' : Demo) (l : List Event)
    (h : prepare_physical_device env d = Outcome.returned d' l) :
    entries l = [(Step.prepare_physical_device, d)] := by
  unfold prepare_physical_device at h
  obtain ⟨s1, l1, l2, h1, h2, rfl⟩ := Outcome.andThen_eq_returned _ _ _ _ h
  have e2 := checkSwapchain_entries env s1
  rw [h2] at e2
  simp only [Outcome.log] at e2
  unfold selectDevice ERR_EXIT at h1
  simp only [] at h1
  split at h1
  · simp only [Outcome.returned.injEq] at h1
    obtain ⟨-, rfl⟩ := h1
    simp [entries_append, entries, e2]
  · simp at h1

theorem printed_append (a b : List Event) : printed (a ++ b) = printed a ++ printed b := by
  induction a with
  | nil => rfl
  | cons e rest ih => cases e <;> simp [printed, ih]

theorem titles_append (a b : List Event) : titles (a ++ b) = titles a ++ titles b := by
  induction a with
  | nil => rfl
  | cons e rest ih => cases e <;> simp [titles, ih]

theorem Outcome.log_after {σ : Type} (pre : List Event) (o : Outcome σ) :
    (Outcome.after pre o).log = pre ++ o.log := by
  cases o <;> rfl

theorem Outcome.state_after {σ : Type} (pre : List Event) (o : Outcome σ) :
    (Outcome.after pre o).state = o.state := by
  cases o <;> rfl

theorem Outcome.isReturned_after {σ : Type} (pre : List Event) (o : Outcome σ) :
    (Outcome.after pre o).isReturned = o.isReturned := by
  cases o <;> rfl

theorem checkSwapchain_gpu (env : Env) (d : Demo) :
    (checkSwapchain env d).state.gpu = d.gpu := by
  unfold checkSwapchain ERR_EXIT
  simp only []
  split_ifs <;> simp [Outcome.state]

theorem checkSwapchain_printed (env : Env) (d : Demo) :
    printed (checkSwapchain env d).log = [] ∧ titles (checkSwapchain env d).log = [] := by
  unfold checkSwapchain ERR_EXIT
  simp only []
  split_ifs <;> simp [Outcome.log, printed, titles]

/-- The outcome of `selectDevice` when at least one device is reported. -/
theorem selectDevice_of_cons (env : Env) (d : Demo) (first : VkPhysicalDevice)
    (others : List VkPhysicalDevice)
    (h : (env.physicalDevices d.inst).items = first :: others) :
    selectDevice env d =
      Outcome.returned { d with gpu := first }
        [Event.enter Step.prepare_physical_device d,
         Event.vkEnumeratePhysicalDevices d.inst none,
         Event.vkEnumeratePhysicalDevices d.inst (some (others.length + 1)),
         Event.vkGetPhysicalDeviceProperties first,
         Event.SetWindowText d.window (env.vkGetPhysicalDeviceProperties first).deviceName,
         Event.printf foundGpuText,
         Event.printf ((env.vkGetPhysicalDeviceProperties first).deviceName ++ "\n\n")] := by
  unfold selectDevice
  simp only [h]
  simp

/-- The outcome of `selectDevice` when no device is reported. -/
theorem selectDevice_of_nil (env : Env) (d : Demo)
    (h : (env.physicalDevices d.inst).items = []) :
    selectDevice env d =
      Outcome.exited d
        [Event.enter Step.prepare_physical_device d,
         Event.vkEnumeratePhysicalDevices d.inst none,
         Event.ERR_EXIT zeroDevicesText "vkEnumeratePhysicalDevices Failure"] := by
  unfold selectDevice ERR_EXIT
  simp only [h]
  simp

theorem prepare_firstInit (env : Env) (p : Program) :
    (prepare env p).state.firstInit = p.firstInit := by
  unfold prepare
  split
  · split <;> simp [Outcome.state]
  · simp [Outcome.state]

/-! ## Lemmas on the two scans -/

theorem strcmpChars_eq_zero_iff (a b : List Char) : strcmpChars a b = 0 ↔ a = b := by
  induction a generalizing b with
  | nil => cases b <;> simp [strcmpChars]
  | cons x xs ih =>
    cases b with
    | nil => simp [strcmpChars]
    | cons y ys =>
      simp only [strcmpChars]
      split_ifs with hxy hlt
      · simp [ih, hxy]
      · simp [hxy]
      · simp [hxy]

theorem strcmp_eq_zero_iff (a b : String) : strcmp a b = 0 ↔ a = b := by
  unfold strcmp
  rw [strcmpChars_eq_zero_iff]
  constructor
  · intro h
    exact String.ext h
  · intro h
    rw [h]

theorem findValidationLayer_eq_zero_iff (wanted : String) (layers : List VkLayerProperties) :
    findValidationLayer wanted layers 0 = 0 ↔ ¬ ∃ l ∈ layers, l.layerName = wanted := by
  induction layers with
  | nil => simp [findValidationLayer]
  | cons l rest ih =>
    simp only [findValidationLayer, strcmp_eq_zero_iff]
    split_ifs with h
    · simp [h]
    · simp only [ih, List.mem_cons, exists_eq_or_imp, not_or]
      constructor
      · intro hr
        exact ⟨fun e => h e.symm, hr⟩
      · intro hr
        exact hr.2

theorem scanDeviceExtensions_found_eq_zero_iff (slots : Nat)
    (exts : List VkExtensionProperties) (acc : ExtensionScan) :
    (scanDeviceExtensions slots exts acc).swapchainExtFound = 0 ↔
      acc.swapchainExtFound = 0 ∧
        ¬ ∃ e ∈ exts, e.extensionName = VK_KHR_SWAPCHAIN_EXTENSION_NAME := by
  induction exts generalizing acc with
  | nil => simp [scanDeviceExtensions]
  | cons e rest ih =>
    simp only [scanDeviceExtensions, strcmp_eq_zero_iff]
    split_ifs with h
    · rw [ih]
      simp [h.symm]
    · rw [ih]
      simp only [List.mem_cons, exists_eq_or_imp, not_or]
      constructor
      · intro hr
        exact ⟨hr.1, fun e => h e.symm, hr.2⟩
      · intro hr
        exact ⟨hr.1, hr.2.2⟩

/-! ## Lemmas on `prepare_instance` -/

theorem checkValidation_of_found (env : Env) (d : Demo) (hv : d.validate = true)
    (hf : ∃ l ∈ env.instanceLayers.items, l.layerName = instance_validation_layer) :
    checkValidation env d =
      Outcome.returned
        { d with
          enabled_layer_count := 1
          enabled_layers := setFirstSlot d.enabled_layers (some instance_validation_layer) }
        [Event.vkEnumerateInstanceLayerProperties none,
         Event.vkEnumerateInstanceLayerProperties (some env.instanceLayers.items.length)] := by
  have hne : findValidationLayer instance_validation_layer env.instanceLayers.items 0 ≠ 0 := by
    intro h0
    exact (findValidationLayer_eq_zero_iff _ _).1 h0 hf
  have hlen : 0 < env.instanceLayers.items.length := by
    obtain ⟨l, hl, -⟩ := hf
    exact List.length_pos_of_mem hl
  have hnil : env.instanceLayers.items ≠ [] := List.length_pos.1 hlen
  unfold checkValidation scanInstanceLayers
  simp [hv, hlen, hne, hnil]

theorem checkValidation_of_missing (env : Env) (d : Demo) (hv : d.validate = true)
    (hm : ¬ ∃ l ∈ env.instanceLayers.items, l.layerName = instance_validation_layer) :
    ∃ d' pre,
      checkValidation env d =
        Outcome.exited d'
          (pre ++ [Event.ERR_EXIT validationMissingText "vkCreateInstance Failure"]) ∧
      ∀ e ∈ pre, ∃ c, e = Event.vkEnumerateInstanceLayerProperties c := by
  have h0 : findValidationLayer instance_validation_layer env.instanceLayers.items 0 = 0 :=
    (findValidationLayer_eq_zero_iff _ _).2 hm
  unfold checkValidation scanInstanceLayers ERR_EXIT
  by_cases hlen : 0 < env.instanceLayers.items.length
  · refine ⟨{ d with enabled_layer_count := 0 },
      [Event.vkEnumerateInstanceLayerProperties none,
       Event.vkEnumerateInstanceLayerProperties (some env.instanceLayers.items.length)], ?_, ?_⟩
    · simp [hv, hlen, h0]
    · intro e he
      simp only [List.mem_cons, List.mem_singleton, List.not_mem_nil, or_false] at he
      rcases he with rfl | rfl
      · exact ⟨_, rfl⟩
      · exact ⟨_, rfl⟩
  · refine ⟨d, [Event.vkEnumerateInstanceLayerProperties none], ?_, ?_⟩
    · simp [hv, hlen]
    · intro e he
      simp only [List.mem_singleton] at he
      exact ⟨_, he⟩

theorem prepare_instance_of_check_returned (env : Env) (d d1 : Demo) (l1 : List Event)
    (h : checkValidation env { d with is_minimized := false } = Outcome.returned d1 l1) :
    prepare_instance env d =
      Outcome.after (Event.enter Step.prepare_instance d :: l1) (createInstance env d1) := by
  unfold prepare_instance
  simp only [Outcome.andThen, h, Outcome.after]
  cases createInstance env d1 <;> simp [Outcome.after]

theorem prepare_instance_of_check_exited (env : Env) (d d1 : Demo) (l1 : List Event)
    (h : checkValidation env { d with is_minimized := false } = Outcome.exited d1 l1) :
    prepare_instance env d = Outcome.exited d1 (Event.enter Step.prepare_instance d :: l1) := by
  unfold prepare_instance
  simp [Outcome.andThen, h, Outcome.after]

theorem createInstance_log_head (env : Env) (d : Demo) :
    ∃ rest, (createInstance env d).log = Event.vkCreateInstance (inst_info d) :: rest := by
  unfold createInstance ERR_EXIT
  simp only []
  split_ifs <;> simp [Outcome.log]

theorem createInstance_isReturned (env : Env) (d : Demo) :
    (createInstance env d).isReturned = true ↔ (env.vkCreateInstance (inst_info d)).1 = 0 := by
  unfold createInstance ERR_EXIT
  simp only []
  split_ifs with h9 h7 h0
  · simp [Outcome.isReturned, h9, VK_ERROR_INCOMPATIBLE_DRIVER]
  · simp [Outcome.isReturned, h7, VK_ERROR_EXTENSION_NOT_PRESENT]
  · simp [Outcome.isReturned, h0]
  · simp only [ne_eq, not_not] at h0
    simp [Outcome.isReturned, h0]

theorem createInstance_failure_log (env : Env) (d : Demo)
    (herr : (env.vkCreateInstance (inst_info d)).1 ≠ 0) :
    (createInstance env d).log =
      [Event.vkCreateInstance (inst_info d),
       Event.ERR_EXIT
        (if (env.vkCreateInstance (inst_info d)).1 = VK_ERROR_INCOMPATIBLE_DRIVER then
          incompatibleDriverText
        else if (env.vkCreateInstance (inst_info d)).1 = VK_ERROR_EXTENSION_NOT_PRESENT then
          extensionNotPresentText
        else createInstanceFailedText)
        "vkCreateInstance Failure"] := by
  unfold createInstance ERR_EXIT
  simp only []
  split_ifs with h9 h7
  · simp [Outcome.log]
  · simp [Outcome.log]
  · simp [Outcome.log]

/-! ## Lemmas on `prepare_physical_device` -/

theorem checkSwapchain_isReturned (env : Env) (d : Demo) :
    (checkSwapchain env d).isReturned = true ↔
      ∃ e ∈ (env.deviceExtensions d.gpu).items,
        e.extensionName = VK_KHR_SWAPCHAIN_EXTENSION_NAME := by
  unfold checkSwapchain ERR_EXIT
  simp only []
  by_cases hlen : 0 < (env.deviceExtensions d.gpu).items.length
  · simp only [hlen, if_true]
    split_ifs with h0
    · rw [scanDeviceExtensions_found_eq_zero_iff] at h0
      simp only [Outcome.isReturned, Bool.false_eq_true, false_iff]
      exact h0.2
    · rw [scanDeviceExtensions_found_eq_zero_iff] at h0
      simp only [true_and, not_not] at h0
      simp only [Outcome.isReturned, true_iff]
      exact h0
  · have hnil : (env.deviceExtensions d.gpu).items = [] := by
      cases hl : (env.deviceExtensions d.gpu).items with
      | nil => rfl
      | cons a b => rw [hl] at hlen; simp at hlen
    simp [hlen, hnil, Outcome.isReturned]

theorem checkSwapchain_missing_log (env : Env) (d : Demo)
    (hm : ¬ ∃ e ∈ (env.deviceExtensions d.gpu).items,
      e.extensionName = VK_KHR_SWAPCHAIN_EXTENSION_NAME) :
    (checkSwapchain env d).log.getLast? =
      some (Event.ERR_EXIT swapchainMissingText "vkCreateInstance Failure") := by
  unfold checkSwapchain ERR_EXIT
  simp only []
  by_cases hlen : 0 < (env.deviceExtensions d.gpu).items.length
  · simp only [hlen, if_true]
    have h0 := (scanDeviceExtensions_found_eq_zero_iff env.extension_names_slots
      (env.deviceExtensions d.gpu).items
      { swapchainExtFound := 0, enabled_extension_count := 0, extension_names := [] }).2 ⟨rfl, hm⟩
    rw [if_pos h0]
    simp only [Outcome.log]
    rw [List.getLast?_concat]
  · simp only [hlen, if_false, if_true]
    simp only [Outcome.log]
    rw [List.getLast?_concat]

theorem prepare_physical_device_of_cons (env : Env) (d : Demo) (first : VkPhysicalDevice)
    (others : List VkPhysicalDevice)
    (h : (env.physicalDevices d.inst).items = first :: others) :
    ∃ pre, prepare_physical_device env d =
      Outcome.after pre (checkSwapchain env { d with gpu := first }) := by
  unfold prepare_physical_device
  rw [selectDevice_of_cons env d first others h]
  exact ⟨_, rfl⟩

theorem getLast?_append_of_getLast? {α : Type} (pre l : List α) (a : α)
    (h : l.getLast? = some a) : (pre ++ l).getLast? = some a := by
  rw [List.getLast?_append, h]
  rfl

/-! ## Lemmas on the ways `prepare` ends the process -/

theorem Outcome.andThen_eq_exited {σ : Type} (o : Outcome σ) (k : σ → Outcome σ)
    (s : σ) (l : List Event) (h : o.andThen k = Outcome.exited s l) :
    o = Outcome.exited s l ∨
      ∃ s1 l1 l2, o = Outcome.returned s1 l1 ∧ k s1 = Outcome.exited s l2 ∧ l = l1 ++ l2 := by
  cases o with
  | returned s1 l1 =>
    right
    cases hk : k s1 with
    | returned s2 l2 => simp [Outcome.andThen, hk, Outcome.after] at h
    | exited s2 l2 =>
      simp [Outcome.andThen, hk, Outcome.after] at h
      exact ⟨s1, l1, l2, rfl, by rw [← h.1]; exact hk, h.2.symm⟩
  | exited s1 l1 =>
    left
    simpa [Outcome.andThen] using h

theorem EndsWithMessage.after (pre l : List Event) (h : EndsWithMessage l) :
    EndsWithMessage (pre ++ l) := by
  rcases h with ⟨q, name, rfl⟩ | ⟨q, a, b, x, y, w, h, rfl⟩ | ⟨q, call, msg, caption, rfl, hm⟩
  · exact Or.inl ⟨pre ++ q, name, by simp⟩
  · exact Or.inr (Or.inl ⟨pre ++ q, a, b, x, y, w, h, by simp⟩)
  · exact Or.inr (Or.inr ⟨pre ++ q, call, msg, caption, by simp, hm⟩)

theorem andThen_exited_endsWithMessage (o : Outcome Demo) (k : Demo → Outcome Demo)
    (ho : ∀ s l, o = Outcome.exited s l → EndsWithMessage l)
    (hk : ∀ s1 s l, k s1 = Outcome.exited s l → EndsWithMessage l)
    (s : Demo) (l : List Event) (h : o.andThen k = Outcome.exited s l) :
    EndsWithMessage l := by
  rcases Outcome.andThen_eq_exited o k s l h with h1 | ⟨s1, l1, l2, -, h2, rfl⟩
  · exact ho s l h1
  · exact EndsWithMessage.after l1 l2 (hk s1 s l2 h2)

theorem prepare_window_exited (env : Env) (d d' : Demo) (l : List Event)
    (h : prepare_window env d = Outcome.exited d' l) : EndsWithMessage l := by
  unfold prepare_window at h
  simp only [] at h
  split_ifs at h with h1 h2
  · simp only [Outcome.exited.injEq] at h
    obtain ⟨-, rfl⟩ := h
    exact Or.inl ⟨[Event.enter Step.prepare_window d, Event.LoadIcon "IDI_APPLICATION",
      Event.LoadCursor "IDC_ARROW", Event.GetStockObject "WHITE_BRUSH",
      Event.LoadIcon "IDI_WINLOGO"], _, rfl⟩
  · simp only [Outcome.exited.injEq] at h
    obtain ⟨-, rfl⟩ := h
    exact Or.inr (Or.inl ⟨[Event.enter Step.prepare_window d, Event.LoadIcon "IDI_APPLICATION",
      Event.LoadCursor "IDC_ARROW", Event.GetStockObject "WHITE_BRUSH",
      Event.LoadIcon "IDI_WINLOGO", Event.RegisterClassEx _, Event.AdjustWindowRect _],
      _, _, _, _, _, _, rfl⟩)

theorem checkValidation_exited (env : Env) (d d' : Demo) (l : List Event)
    (h : checkValidation env d = Outcome.exited d' l) : EndsWithMessage l := by
  have hm : mentions validationMissingText "vkEnumerateInstanceLayerProperties" = true := by
    decide
  unfold checkValidation scanInstanceLayers ERR_EXIT at h
  simp only [] at h
  split_ifs at h with hv h1 h2 h3
  all_goals
    simp only [Outcome.exited.injEq] at h
    obtain ⟨-, rfl⟩ := h
  · exact Or.inr (Or.inr ⟨[Event.vkEnumerateInstanceLayerProperties none], _, _, _, rfl,
      Or.inl hm⟩)
  · exact Or.inr (Or.inr ⟨[Event.vkEnumerateInstanceLayerProperties none], _, _, _, rfl,
      Or.inl hm⟩)
  · exact Or.inr (Or.inr ⟨[], _, _, _, rfl, Or.inl hm⟩)

theorem createInstance_exited (env : Env) (d d' : Demo) (l : List Event)
    (h : createInstance env d = Outcome.exited d' l) : EndsWithMessage l := by
  have hm : mentions "vkCreateInstance Failure" "vkCreateInstance" = true := by decide
  unfold createInstance ERR_EXIT at h
  simp only [] at h
  split_ifs at h with h9 h7 h0
  all_goals
    simp only [Outcome.exited.injEq] at h
    obtain ⟨-, rfl⟩ := h
    exact Or.inr (Or.inr ⟨[], _, _, _, rfl, Or.inr hm⟩)

theorem prepare_instance_exited (env : Env) (d d' : Demo) (l : List Event)
    (h : prepare_instance env d = Outcome.exited d' l) : EndsWithMessage l := by
  unfold prepare_instance at h
  refine andThen_exited_endsWithMessage _ _ ?_ (fun s1 s l => createInstance_exited env s1 s l)
    d' l h
  intro s l0 h0
  refine andThen_exited_endsWithMessage _ _ ?_
    (fun s1 s l => checkValidation_exited env s1 s l) s l0 h0
  intro s l1 h1
  simp at h1

theorem selectDevice_exited (env : Env) (d d' : Demo) (l : List Event)
    (h : selectDevice env d = Outcome.exited d' l) : EndsWithMessage l := by
  have hm : mentions zeroDevicesText "vkEnumeratePhysicalDevices" = true := by decide
  unfold selectDevice ERR_EXIT at h
  simp only [] at h
  split at h
  · simp at h
  · simp only [Outcome.exited.injEq] at h
    obtain ⟨-, rfl⟩ := h
    exact Or.inr (Or.inr ⟨[Event.enter Step.prepare_physical_device d], _, _, _, rfl,
      Or.inl hm⟩)

theorem checkSwapchain_exited (env : Env) (d d' : Demo) (l : List Event)
    (h : checkSwapchain env d = Outcome.exited d' l) : EndsWithMessage l := by
  have hm : mentions swapchainMissingText "vkEnumerateDeviceExtensionProperties" = true := by
    decide
  unfold checkSwapchain ERR_EXIT at h
  simp only [] at h
  by_cases hlen : 0 < (env.deviceExtensions d.gpu).items.length
  · simp only [hlen, if_true] at h
    split_ifs at h
    simp only [Outcome.exited.injEq] at h
    obtain ⟨-, rfl⟩ := h
    exact Or.inr (Or.inr ⟨[Event.vkEnumerateDeviceExtensionProperties d.gpu none], _, _, _, rfl,
      Or.inl hm⟩)
  · simp only [hlen, if_false, if_true] at h
    simp only [Outcome.exited.injEq] at h
    obtain ⟨-, rfl⟩ := h
    exact Or.inr (Or.inr ⟨[], _, _, _, rfl, Or.inl hm⟩)

theorem prepare_physical_device_exited (env : Env) (d d' : Demo) (l : List Event)
    (h : prepare_physical_device env d = Outcome.exited d' l) : EndsWithMessage l := by
  unfold prepare_physical_device at h
  exact andThen_exited_endsWithMessage _ _ (fun s l => selectDevice_exited env d s l)
    (fun s1 s l => checkSwapchain_exited env s1 s l) d' l h

theorem firstInitBody_exited (env : Env) (d d' : Demo) (l : List Event)
    (h : firstInitBody env d = Outcome.exited d' l) : EndsWithMessage l := by
  unfold firstInitBody at h
  refine andThen_exited_endsWithMessage _ _ ?_
    (fun s1 s l => prepare_physical_device_exited env s1 s l) d' l h
  intro s3 l3 h3
  refine andThen_exited_endsWithMessage _ _ ?_
    (fun s1 s l => prepare_instance_exited env s1 s l) s3 l3 h3
  intro s2 l2 h2
  refine andThen_exited_endsWithMessage _ _ ?_
    (fun s1 s l => prepare_window_exited env _ s l) s2 l2 h2
  intro s1 l1 h1
  simp [prepare_console] at h1

/-! ## Lemmas on failed calls -/

theorem fatalAfterFailure_append (env : Env) (a b : List Event)
    (ha : ∀ e ∈ a, failedCall env e = false) :
    fatalAfterFailure env (a ++ b) = fatalAfterFailure env b := by
  induction a with
  | nil => rfl
  | cons e rest ih =>
    have he : failedCall env e = false := ha e (List.mem_cons_self _ _)
    simp only [List.cons_append, fatalAfterFailure, he, Bool.false_eq_true, if_false]
    exact ih (fun x hx => ha x (List.mem_cons_of_mem _ hx))

theorem fatalAfterFailure_split (env : Env) (pre : List Event) (e : Event) (post : List Event)
    (h : fatalAfterFailure env (pre ++ e :: post) = true) (he : failedCall env e = true) :
    ∀ x ∈ post, isReport x = true := by
  induction pre with
  | nil =>
    simp only [List.nil_append, fatalAfterFailure, he, if_true, List.all_eq_true] at h
    exact h
  | cons a rest ih =>
    simp only [List.cons_append, fatalAfterFailure] at h
    split_ifs at h with ha
    · rw [List.all_eq_true] at h
      intro x hx
      exact h x (List.mem_append_right rest (List.mem_cons_of_mem e hx))
    · exact ih h

theorem FailuresAreFatal.andThen (env : Env) (o : Outcome Demo) (k : Demo → Outcome Demo)
    (ho : FailuresAreFatal env o) (hk : ∀ s, FailuresAreFatal env (k s)) :
    FailuresAreFatal env (o.andThen k) := by
  cases o with
  | exited s l => exact ho
  | returned s l =>
    have hks := hk s
    simp only [Outcome.andThen]
    cases hr : k s with
    | returned s2 l2 =>
      rw [hr] at hks
      simp only [Outcome.after, FailuresAreFatal, List.mem_append]
      intro e he
      rcases he with he | he
      · exact ho e he
      · exact hks e he
    | exited s2 l2 =>
      rw [hr] at hks
      simp only [Outcome.after, FailuresAreFatal]
      rw [fatalAfterFailure_append env l l2 ho]
      exact hks

theorem prepare_console_failuresAreFatal (env : Env) (d : Demo) :
    FailuresAreFatal env (prepare_console env d) := by
  intro e he
  simp only [List.mem_cons, List.mem_singleton, List.not_mem_nil, or_false] at he
  rcases he with rfl | rfl | rfl | rfl | rfl | rfl | rfl | rfl | rfl | rfl <;> rfl

theorem prepare_window_failuresAreFatal (env : Env) (d : Demo) :
    FailuresAreFatal env (prepare_window env d) := by
  unfold prepare_window
  simp only []
  split_ifs with h1 h2
  · simp [FailuresAreFatal, fatalAfterFailure, failedCall, isReport, h1]
  · simp only [] at h2
    simp [FailuresAreFatal, fatalAfterFailure, failedCall, isReport, h1, h2]
  · simp only [] at h2
    simp [FailuresAreFatal, failedCall, h1, h2]

theorem checkValidation_failuresAreFatal (env : Env) (d : Demo) :
    FailuresAreFatal env (checkValidation env d) := by
  unfold checkValidation scanInstanceLayers ERR_EXIT
  simp only []
  split_ifs <;> simp [FailuresAreFatal, fatalAfterFailure, failedCall]

theorem createInstance_failuresAreFatal (env : Env) (d : Demo) :
    FailuresAreFatal env (createInstance env d) := by
  unfold createInstance ERR_EXIT
  simp only []
  split_ifs with h9 h7 h0
  · simp [FailuresAreFatal, fatalAfterFailure, failedCall, isReport]
  · simp [FailuresAreFatal, fatalAfterFailure, failedCall, isReport]
  · simp [FailuresAreFatal, fatalAfterFailure, failedCall, isReport]
  · simp only [ne_eq, not_not] at h0
    simp [FailuresAreFatal, failedCall, h0]

theorem prepare_instance_failuresAreFatal (env : Env) (d : Demo) :
    FailuresAreFatal env (prepare_instance env d) := by
  unfold prepare_instance
  refine FailuresAreFatal.andThen env _ _ ?_ (createInstance_failuresAreFatal env)
  refine FailuresAreFatal.andThen env _ _ ?_ (checkValidation_failuresAreFatal env)
  intro e he
  simp only [List.mem_singleton] at he
  rw [he]
  rfl

theorem selectDevice_failuresAreFatal (env : Env) (d : Demo) :
    FailuresAreFatal env (selectDevice env d) := by
  unfold selectDevice ERR_EXIT
  simp only []
  split <;> simp [FailuresAreFatal, fatalAfterFailure, failedCall]

theorem checkSwapchain_failuresAreFatal (env : Env) (d : Demo) :
    FailuresAreFatal env (checkSwapchain env d) := by
  unfold checkSwapchain ERR_EXIT
  simp only []
  split_ifs <;> simp [FailuresAreFatal, fatalAfterFailure, failedCall]

theorem firstInitBody_failuresAreFatal (env : Env) (d : Demo) :
    FailuresAreFatal env (firstInitBody env d) := by
  unfold firstInitBody prepare_physical_device
  refine FailuresAreFatal.andThen env _ _ ?_ ?_
  · refine FailuresAreFatal.andThen env _ _ ?_ (prepare_instance_failuresAreFatal env)
    refine FailuresAreFatal.andThen env _ _ (prepare_console_failuresAreFatal env _) ?_
    intro s
    exact prepare_window_failuresAreFatal env _
  · intro s
    exact FailuresAreFatal.andThen env _ _ (selectDevice_failuresAreFatal env s)
      (checkSwapchain_failuresAreFatal env)

theorem prepare_failuresAreFatal (env : Env) (p : Program) :
    FailuresAreFatal env (prepare env p) := by
  unfold prepare
  split
  · have hb := firstInitBody_failuresAreFatal env p.demo
    cases hr : firstInitBody env p.demo with
    | returned d l => rw [hr] at hb; exact hb
    | exited d l => rw [hr] at hb; exact hb
  · intro e he
    simp at he

/-! ## The claims -/

/-- C1, evaluated on the code.  The claim is that a completed call of
`prepare` leaves `firstInit` false, so that a second call does nothing.  On
the machine `sampleEnv` the first call returns, `firstInit` is still true
after it, and a second call on the state it left enters the four member
functions again. -/
theorem prepare_second_call_repeats_the_steps :
    (prepare sampleEnv sampleProgram).isReturned = true ∧
    (prepare sampleEnv sampleProgram).state.firstInit = true ∧
    (entries (prepare sampleEnv (prepare sampleEnv sampleProgram).state).log).map Prod.fst =
      [Step.prepare_console, Step.prepare_window, Step.prepare_instance,
       Step.prepare_physical_device] := by
  decide

/-- C2.  When `firstInit` is true and `prepare` returns, the member functions
entered are `prepare_console`, `prepare_window`, `prepare_instance` and
`prepare_physical_device`, each once and in this order; on entry to
`prepare_window` the object has `width = 640` and `height = 360`, and on
entry to `prepare_instance` it has `validate = true`. -/
theorem prepare_runs_the_four_steps_in_order (env : Env) (p p' : Program) (log : List Event)
    (hfirst : p.firstInit = true) (hret : prepare env p = Outcome.returned p' log) :
    ∃ dc dw di dp : Demo,
      entries log =
        [(Step.prepare_console, dc), (Step.prepare_window, dw),
         (Step.prepare_instance, di), (Step.prepare_physical_device, dp)] ∧
      dw.width = 640 ∧ dw.height = 360 ∧ di.validate = true := by
  unfold prepare at hret
  rw [if_pos hfirst] at hret
  cases hbody : firstInitBody env p.demo with
  | exited d l => rw [hbody] at hret; simp at hret
  | returned d l =>
    rw [hbody] at hret
    simp only [Outcome.returned.injEq] at hret
    obtain ⟨-, rfl⟩ := hret
    unfold firstInitBody at hbody
    obtain ⟨d3, l3, l4, h3, h4, rfl⟩ := Outcome.andThen_eq_returned _ _ _ _ hbody
    obtain ⟨d2, l2, l3', h2, h3', rfl⟩ := Outcome.andThen_eq_returned _ _ _ _ h3
    obtain ⟨d1, l1, l2', h1, h2', rfl⟩ := Outcome.andThen_eq_returned _ _ _ _ h2
    unfold prepare_console at h1
    simp only [Outcome.returned.injEq] at h1
    obtain ⟨rfl, rfl⟩ := h1
    obtain ⟨ew, hv⟩ := prepare_window_returned _ _ _ _ h2'
    have ei := prepare_instance_returned _ _ _ _ h3'
    have ep := prepare_physical_device_returned _ _ _ _ h4
    refine ⟨{ p.demo with validate := true },
      { p.demo with validate := true, width := 640, height := 360 }, d2, d3, ?_, rfl, rfl, ?_⟩
    · simp only [entries_append, ew, ei, ep]
      simp [entries]
    · rw [hv]

/-- C2 on the machine `sampleEnv`, where every call succeeds. -/
theorem prepare_runs_the_four_steps_in_order_witness :
    sampleProgram.firstInit = true ∧
    ∃ dc dw di dp : Demo,
      entries (prepare sampleEnv sampleProgram).log =
        [(Step.prepare_console, dc), (Step.prepare_window, dw),
         (Step.prepare_instance, di), (Step.prepare_physical_device, dp)] ∧
      dw.width = 640 ∧ dw.height = 360 ∧ di.validate = true :=
  ⟨rfl, prepare_runs_the_four_steps_in_order sampleEnv sampleProgram
    (prepare sampleEnv sampleProgram).state (prepare sampleEnv sampleProgram).log rfl (by decide)⟩

/-- C3.  When `vkEnumeratePhysicalDevices` reports a non-empty list,
`prepare_physical_device` leaves in `gpu` the first device of the list,
whatever the other devices are and however the function ends. -/
theorem prepare_physical_device_keeps_first_device (env : Env) (d : Demo)
    (first : VkPhysicalDevice) (others : List VkPhysicalDevice)
    (h : (env.physicalDevices d.inst).items = first :: others) :
    (prepare_physical_device env d).state.gpu = first := by
  unfold prepare_physical_device
  rw [selectDevice_of_cons env d first others h]
  simp only [Outcome.andThen, Outcome.state_after]
  rw [checkSwapchain_gpu]

/-- C3 on the machine `sampleEnv`: of the devices `11` and `12`, `11` is
kept. -/
theorem prepare_physical_device_keeps_first_device_witness :
    (sampleEnv.physicalDevices sampleDemo.inst).items = 11 :: [12] ∧
    (prepare_physical_device sampleEnv sampleDemo).state.gpu = 11 :=
  ⟨rfl, prepare_physical_device_keeps_first_device sampleEnv sampleDemo 11 [12] rfl⟩

/-- C4.  When `vkEnumeratePhysicalDevices` reports a non-empty list,
`prepare_physical_device` sets the title of `window` once, to the
`deviceName` of the first device, and what it writes with `printf` is the
line "We found a GPU, the name of the GPU is:" followed by that same name and
two line ends; the device whose name is shown is the one left in `gpu`. -/
theorem prepare_physical_device_shows_name_of_gpu (env : Env) (d : Demo)
    (first : VkPhysicalDevice) (others : List VkPhysicalDevice)
    (h : (env.physicalDevices d.inst).items = first :: others) :
    titles (prepare_physical_device env d).log =
      [(d.window, (env.vkGetPhysicalDeviceProperties
          (prepare_physical_device env d).state.gpu).deviceName)] ∧
    printed (prepare_physical_device env d).log =
      ["We found a GPU, the name of the GPU is:\n",
       (env.vkGetPhysicalDeviceProperties
          (prepare_physical_device env d).state.gpu).deviceName ++ "\n\n"] ∧
    (prepare_physical_device env d).state.gpu = first := by
  have hgpu : (prepare_physical_device env d).state.gpu = first := by
    unfold prepare_physical_device
    rw [selectDevice_of_cons env d first others h]
    simp only [Outcome.andThen, Outcome.state_after]
    rw [checkSwapchain_gpu]
  rw [hgpu]
  refine ⟨?_, ?_, rfl⟩
  · unfold prepare_physical_device
    rw [selectDevice_of_cons env d first others h]
    simp only [Outcome.andThen, Outcome.log_after, titles_append,
      (checkSwapchain_printed env _).2]
    simp [titles]
  · unfold prepare_physical_device
    rw [selectDevice_of_cons env d first others h]
    simp only [Outcome.andThen, Outcome.log_after, printed_append,
      (checkSwapchain_printed env _).1]
    simp [printed, foundGpuText]

/-- C4 on the machine `sampleEnv`: the first device is `11`, called
`GPU A`. -/
theorem prepare_physical_device_shows_name_of_gpu_witness :
    (sampleEnv.physicalDevices sampleDemo.inst).items = 11 :: [12] ∧
    titles (prepare_physical_device sampleEnv sampleDemo).log = [(0, "GPU A")] ∧
    printed (prepare_physical_device sampleEnv sampleDemo).log =
      ["We found a GPU, the name of the GPU is:\n", "GPU A\n\n"] :=
  ⟨rfl,
   (prepare_physical_device_shows_name_of_gpu sampleEnv sampleDemo 11 [12] rfl).1,
   (prepare_physical_device_shows_name_of_gpu sampleEnv sampleDemo 11 [12] rfl).2.1⟩

/-- C5.  With `validate` true, `prepare_instance` calls `vkCreateInstance`
exactly when the list of `vkEnumerateInstanceLayerProperties` has an entry
whose `layerName` is "VK_LAYER_KHRONOS_validation".  Otherwise (empty list, or
no entry of that name) it does not return: its last event is `ERR_EXIT` with
the text `validationMissingText`, which begins with
"vkEnumerateInstanceLayerProperties failed to find required validation
layer." -/
theorem prepare_instance_creates_iff_validation_layer (env : Env) (d : Demo)
    (hv : d.validate = true) :
    ((∃ info, Event.vkCreateInstance info ∈ (prepare_instance env d).log) ↔
      ∃ l ∈ env.instanceLayers.items, l.layerName = "VK_LAYER_KHRONOS_validation") ∧
    ((¬ ∃ l ∈ env.instanceLayers.items, l.layerName = "VK_LAYER_KHRONOS_validation") →
      (prepare_instance env d).isReturned = false ∧
      (prepare_instance env d).log.getLast? =
        some (Event.ERR_EXIT validationMissingText "vkCreateInstance Failure")) ∧
    ∃ rest : String,
      validationMissingText =
        "vkEnumerateInstanceLayerProperties failed to find required validation layer." ++
          rest := by
  have hv0 : ({ d with is_minimized := false } : Demo).validate = true := hv
  have hmiss : (¬ ∃ l ∈ env.instanceLayers.items, l.layerName = instance_validation_layer) →
      (prepare_instance env d).isReturned = false ∧
      (prepare_instance env d).log.getLast? =
        some (Event.ERR_EXIT validationMissingText "vkCreateInstance Failure") ∧
      ¬ ∃ info, Event.vkCreateInstance info ∈ (prepare_instance env d).log := by
    intro hm
    obtain ⟨d', pre, hc, hpre⟩ := checkValidation_of_missing env _ hv0 hm
    rw [prepare_instance_of_check_exited env d d' _ hc]
    refine ⟨rfl, ?_, ?_⟩
    · simp only [Outcome.log]
      rw [← List.cons_append, List.getLast?_concat]
    · rintro ⟨info, hin⟩
      simp only [Outcome.log, List.mem_cons, List.mem_append, List.mem_singleton,
        List.not_mem_nil, or_false] at hin
      rcases hin with h | h | h
      · cases h
      · obtain ⟨c, hc⟩ := hpre _ h
        cases hc
      · cases h
  refine ⟨⟨?_, ?_⟩, ?_, ?_⟩
  · intro hcall
    by_contra hm
    exact (hmiss hm).2.2 hcall
  · intro hf
    obtain ⟨d1, l1, hc⟩ : ∃ d1 l1,
        checkValidation env { d with is_minimized := false } = Outcome.returned d1 l1 :=
      ⟨_, _, checkValidation_of_found env _ hv0 hf⟩
    rw [prepare_instance_of_check_returned env d d1 l1 hc, Outcome.log_after]
    obtain ⟨rest, hrest⟩ := createInstance_log_head env d1
    refine ⟨inst_info d1, ?_⟩
    rw [hrest]
    simp
  · intro hm
    exact ⟨(hmiss hm).1, (hmiss hm).2.1⟩
  · exact ⟨"\n\nPlease look at the Getting Started guide for additional information.\n",
      rfl⟩

/-- C5 on the machine `sampleEnv`, whose second layer is the validation
layer. -/
theorem prepare_instance_creates_iff_validation_layer_witness :
    sampleValidating.validate = true ∧
    ((∃ info, Event.vkCreateInstance info ∈ (prepare_instance sampleEnv sampleValidating).log) ↔
      ∃ l ∈ sampleEnv.instanceLayers.items, l.layerName = "VK_LAYER_KHRONOS_validation") :=
  ⟨rfl, (prepare_instance_creates_iff_validation_layer sampleEnv sampleValidating rfl).1⟩

/-- C6.  `prepare_physical_device` returns exactly when
`vkEnumeratePhysicalDevices` reports at least one device and the extension
list of the first device has an entry whose `extensionName` is
"VK_KHR_swapchain".  When there is a device but its extension list is empty or
lacks that name, the function does not return and its last event is
`ERR_EXIT` with the text saying that `vkEnumerateDeviceExtensionProperties`
failed to find the extension. -/
theorem prepare_physical_device_returns_iff (env : Env) (d : Demo) :
    ((prepare_physical_device env d).isReturned = true ↔
      ∃ first others, (env.physicalDevices d.inst).items = first :: others ∧
        ∃ e ∈ (env.deviceExtensions first).items, e.extensionName = "VK_KHR_swapchain") ∧
    (∀ first others, (env.physicalDevices d.inst).items = first :: others →
      (¬ ∃ e ∈ (env.deviceExtensions first).items, e.extensionName = "VK_KHR_swapchain") →
      (prepare_physical_device env d).isReturned = false ∧
      (prepare_physical_device env d).log.getLast? =
        some (Event.ERR_EXIT swapchainMissingText "vkCreateInstance Failure")) ∧
    swapchainMissingText =
      "vkEnumerateDeviceExtensionProperties failed to find the VK_KHR_swapchain extension." ++
      "\n\nDo you have a compatible Vulkan installable client driver (ICD) installed?\n" ++
      "Please look at the Getting Started guide for additional information.\n" := by
  refine ⟨?_, ?_, rfl⟩
  · cases hitems : (env.physicalDevices d.inst).items with
    | nil =>
      unfold prepare_physical_device
      rw [selectDevice_of_nil env d hitems]
      simp [Outcome.andThen, Outcome.isReturned]
    | cons first others =>
      obtain ⟨pre, hpre⟩ := prepare_physical_device_of_cons env d first others hitems
      rw [hpre, Outcome.isReturned_after, checkSwapchain_isReturned]
      constructor
      · intro he
        exact ⟨first, others, rfl, he⟩
      · rintro ⟨f, o, hfo, he⟩
        simp only [List.cons.injEq] at hfo
        rw [hfo.1]
        exact he
  · intro first others hitems hm
    obtain ⟨pre, hpre⟩ := prepare_physical_device_of_cons env d first others hitems
    rw [hpre, Outcome.isReturned_after, Outcome.log_after]
    constructor
    · cases hr : (checkSwapchain env { d with gpu := first }).isReturned with
      | false => rfl
      | true => exact absurd ((checkSwapchain_isReturned env _).1 hr) hm
    · exact getLast?_append_of_getLast? _ _ _ (checkSwapchain_missing_log env _ hm)

/-- C6 on the machine `sampleEnv`: the first device is `11` and its second
extension is the swapchain extension, so the function returns. -/
theorem prepare_physical_device_returns_iff_witness :
    (prepare_physical_device sampleEnv sampleDemo).isReturned = true :=
  (prepare_physical_device_returns_iff sampleEnv sampleDemo).1.2
    ⟨11, [12], rfl, { extensionName := "VK_KHR_swapchain" }, by decide, rfl⟩

/-- C7.  When `vkEnumeratePhysicalDevices` reports no device,
`prepare_physical_device` makes the counting call and then ends in `ERR_EXIT`
with the text beginning "vkEnumeratePhysicalDevices reported zero accessible
devices." under the caption "vkEnumeratePhysicalDevices Failure".  The object
is as it was on entry (`gpu` is not assigned), and there is no
`SetWindowText`, no `printf`, no `vkGetPhysicalDeviceProperties` and no
`vkEnumerateDeviceExtensionProperties` among the events. -/
theorem prepare_physical_device_without_devices (env : Env) (d : Demo)
    (h : (env.physicalDevices d.inst).items = []) :
    prepare_physical_device env d =
      Outcome.exited d
        [Event.enter Step.prepare_physical_device d,
         Event.vkEnumeratePhysicalDevices d.inst none,
         Event.ERR_EXIT zeroDevicesText "vkEnumeratePhysicalDevices Failure"] ∧
    ∃ rest : String,
      zeroDevicesText =
        "vkEnumeratePhysicalDevices reported zero accessible devices." ++ rest := by
  constructor
  · unfold prepare_physical_device
    rw [selectDevice_of_nil env d h]
    rfl
  · exact ⟨"\n\nDo you have a compatible Vulkan installable client driver (ICD) installed?\n" ++
      "Please look at the Getting Started guide for additional information.\n", rfl⟩

/-- C7 on the machine `envNoDevices`. -/
theorem prepare_physical_device_without_devices_witness :
    (envNoDevices.physicalDevices sampleDemo.inst).items = [] ∧
    prepare_physical_device envNoDevices sampleDemo =
      Outcome.exited sampleDemo
        [Event.enter Step.prepare_physical_device sampleDemo,
         Event.vkEnumeratePhysicalDevices 0 none,
         Event.ERR_EXIT zeroDevicesText "vkEnumeratePhysicalDevices Failure"] :=
  ⟨rfl, (prepare_physical_device_without_devices envNoDevices sampleDemo rfl).1⟩

/-- C8.  Once the validation block of `prepare_instance` has been passed,
`prepare_instance` returns exactly when `vkCreateInstance` returns `0`.  For
every other result its events end with the call and an `ERR_EXIT`, whose text
is `incompatibleDriverText` exactly for `-9`, `extensionNotPresentText`
exactly for `-7`, and `createInstanceFailedText` exactly for the remaining
results, positive ones included. -/
theorem prepare_instance_returns_iff_create_succeeds (env : Env) (d d1 : Demo)
    (l1 : List Event)
    (hcheck : checkValidation env { d with is_minimized := false } = Outcome.returned d1 l1) :
    ((prepare_instance env d).isReturned = true ↔
      (env.vkCreateInstance (inst_info d1)).1 = 0) ∧
    ((env.vkCreateInstance (inst_info d1)).1 ≠ 0 →
      ∃ msg,
        (prepare_instance env d).log =
          Event.enter Step.prepare_instance d :: l1 ++
            [Event.vkCreateInstance (inst_info d1),
             Event.ERR_EXIT msg "vkCreateInstance Failure"] ∧
        (msg = incompatibleDriverText ↔ (env.vkCreateInstance (inst_info d1)).1 = -9) ∧
        (msg = extensionNotPresentText ↔ (env.vkCreateInstance (inst_info d1)).1 = -7) ∧
        (msg = createInstanceFailedText ↔
          (env.vkCreateInstance (inst_info d1)).1 ≠ -9 ∧
          (env.vkCreateInstance (inst_info d1)).1 ≠ -7)) ∧
    (∃ rest : String, incompatibleDriverText =
      "Cannot find a compatible Vulkan installable client driver (ICD)." ++ rest) ∧
    (∃ rest : String, extensionNotPresentText =
      "Cannot find a specified extension library." ++ rest) ∧
    (∃ rest : String, createInstanceFailedText = "vkCreateInstance failed." ++ rest) := by
  have h97 : incompatibleDriverText ≠ extensionNotPresentText := by decide
  have h9f : incompatibleDriverText ≠ createInstanceFailedText := by decide
  have h7f : extensionNotPresentText ≠ createInstanceFailedText := by decide
  refine ⟨?_, ?_, ?_, ?_, ?_⟩
  · rw [prepare_instance_of_check_returned env d d1 l1 hcheck, Outcome.isReturned_after,
      createInstance_isReturned]
  · intro herr
    refine ⟨(if (env.vkCreateInstance (inst_info d1)).1 = VK_ERROR_INCOMPATIBLE_DRIVER then
          incompatibleDriverText
        else if (env.vkCreateInstance (inst_info d1)).1 = VK_ERROR_EXTENSION_NOT_PRESENT then
          extensionNotPresentText
        else createInstanceFailedText), ?_, ?_, ?_, ?_⟩
    · rw [prepare_instance_of_check_returned env d d1 l1 hcheck, Outcome.log_after,
        createInstance_failure_log env d1 herr]
    · split_ifs with h9 h7
      · simp [h9, VK_ERROR_INCOMPATIBLE_DRIVER]
      · simp only [VK_ERROR_INCOMPATIBLE_DRIVER] at h9
        simp [h9, h97.symm]
      · simp only [VK_ERROR_INCOMPATIBLE_DRIVER] at h9
        simp [h9, h9f.symm]
    · split_ifs with h9 h7
      · simp only [VK_ERROR_INCOMPATIBLE_DRIVER] at h9
        simp [h9, h97]
      · simp only [VK_ERROR_EXTENSION_NOT_PRESENT] at h7
        simp [h7]
      · simp only [VK_ERROR_EXTENSION_NOT_PRESENT] at h7
        simp [h7, h7f.symm]
    · split_ifs with h9 h7
      · simp only [VK_ERROR_INCOMPATIBLE_DRIVER] at h9
        simp [h9, h9f]
      · simp only [VK_ERROR_EXTENSION_NOT_PRESENT] at h7
        simp [h7, h7f]
      · simp only [VK_ERROR_INCOMPATIBLE_DRIVER] at h9
        simp only [VK_ERROR_EXTENSION_NOT_PRESENT] at h7
        simp [h9, h7]
  · exact ⟨"\n\nPlease look at the Getting Started guide for additional information.\n",
      rfl⟩
  · exact ⟨"\nMake sure your layers path is set appropriately.\n", rfl⟩
  · exact ⟨"\n\nDo you have a compatible Vulkan installable client driver (ICD) installed?\n" ++
      "Please look at the Getting Started guide for additional information.\n", rfl⟩

/-- C8 on the machine `sampleEnv`, where the validation block is passed and
`vkCreateInstance` returns `0`. -/
theorem prepare_instance_returns_iff_create_succeeds_witness :
    checkValidation sampleEnv { sampleValidating with is_minimized := false } =
      Outcome.returned
        (checkValidation sampleEnv { sampleValidating with is_minimized := false }).state
        (checkValidation sampleEnv { sampleValidating with is_minimized := false }).log ∧
    (prepare_instance sampleEnv sampleValidating).isReturned = true :=
  ⟨by decide,
   (prepare_instance_returns_iff_create_succeeds sampleEnv sampleValidating
      (checkValidation sampleEnv { sampleValidating with is_minimized := false }).state
      (checkValidation sampleEnv { sampleValidating with is_minimized := false }).log
      (by decide)).1.2 (by decide)⟩

/-- C9 as stated fails on the machine `envRegisterFails`.  `RegisterClassEx`
returns `0`; the process ends after the events `RegisterClassEx`, `printf`,
`fflush` and `exit(1)`, and the one text printed, "Unexpected error trying to
start the application!", does not contain the name `RegisterClassEx`. -/
theorem register_failure_text_names_no_call :
    envRegisterFails.RegisterClassEx "Loading..." = 0 ∧
    (prepare envRegisterFails sampleProgram).isReturned = false ∧
    (prepare envRegisterFails sampleProgram).log.drop 15 =
      [Event.RegisterClassEx "Loading...",
       Event.printf "Unexpected error trying to start the application!\n",
       Event.fflush,
       Event.exit 1] ∧
    printed (prepare envRegisterFails sampleProgram).log =
      ["Unexpected error trying to start the application!\n"] ∧
    mentions "Unexpected error trying to start the application!\n" "RegisterClassEx" = false := by
  decide

/-- C9, amended.  Whenever `prepare` ends the process, the log ends in one of
three ways: `RegisterClassEx`, the text `registerFailedText` printed and
flushed, `exit(1)`; or `CreateWindowEx`, the text `windowFailedText` printed
and flushed, `exit(1)`; or a call followed by an `ERR_EXIT` whose text or
caption contains the name of that call.  The two printed texts do not contain
the names `RegisterClassEx` and `CreateWindowEx`. -/
theorem prepare_failure_ends_with_message (env : Env) (p p' : Program) (log : List Event)
    (hexit : prepare env p = Outcome.exited p' log) :
    ((∃ pre name, log = pre ++
        [Event.RegisterClassEx name, Event.printf registerFailedText, Event.fflush,
         Event.exit 1]) ∨
      (∃ pre className windowName x y w h, log = pre ++
        [Event.CreateWindowEx className windowName x y w h, Event.printf windowFailedText,
         Event.fflush, Event.exit 1]) ∨
      (∃ pre call msg caption, log = pre ++ [call, Event.ERR_EXIT msg caption] ∧
        (mentions msg call.callName = true ∨ mentions caption call.callName = true))) ∧
    mentions registerFailedText "RegisterClassEx" = false ∧
    mentions windowFailedText "CreateWindowEx" = false := by
  refine ⟨?_, by decide, by decide⟩
  unfold prepare at hexit
  split at hexit
  · cases hb : firstInitBody env p.demo with
    | returned d l => rw [hb] at hexit; simp at hexit
    | exited d l =>
      rw [hb] at hexit
      simp only [Outcome.exited.injEq] at hexit
      obtain ⟨-, rfl⟩ := hexit
      exact firstInitBody_exited env p.demo d l hb
  · simp at hexit

/-- C9, amended, on the machine `envRegisterFails`. -/
theorem prepare_failure_ends_with_message_witness :
    prepare envRegisterFails sampleProgram =
      Outcome.exited (prepare envRegisterFails sampleProgram).state
        (prepare envRegisterFails sampleProgram).log ∧
    mentions registerFailedText "RegisterClassEx" = false :=
  ⟨by decide,
   (prepare_failure_ends_with_message envRegisterFails sampleProgram
      (prepare envRegisterFails sampleProgram).state
      (prepare envRegisterFails sampleProgram).log (by decide)).2.1⟩

/-- C10 as stated fails on the machine `envFillFails`.  The second call of
`vkEnumeratePhysicalDevices` returns `VK_ERROR_OUT_OF_HOST_MEMORY`, which is
not `VK_SUCCESS`; `prepare` goes on with `vkGetPhysicalDeviceProperties`,
`SetWindowText`, two `printf` and two calls of
`vkEnumerateDeviceExtensionProperties`, and returns. -/
theorem enumeration_failure_is_not_fatal :
    (envFillFails.physicalDevices 7).fillResult = VK_ERROR_OUT_OF_HOST_MEMORY ∧
    VK_ERROR_OUT_OF_HOST_MEMORY ≠ VK_SUCCESS ∧
    (prepare envFillFails sampleProgram).isReturned = true ∧
    (prepare envFillFails sampleProgram).log.drop 26 =
      [Event.vkEnumeratePhysicalDevices 7 (some 2),
       Event.vkGetPhysicalDeviceProperties 11,
       Event.SetWindowText 9 "GPU A",
       Event.printf "We found a GPU, the name of the GPU is:\n",
       Event.printf "GPU A\n\n",
       Event.vkEnumerateDeviceExtensionProperties 11 none,
       Event.vkEnumerateDeviceExtensionProperties 11 (some 2)] := by
  decide

/-- C10, amended.  The `VkResult` of the three enumeration functions has no
effect: `prepare` ends in the same way, with the same object and the same
events, when all these results are replaced by `VK_SUCCESS`.  A failure of a
call whose answer is tested (`RegisterClassEx` returning `0`, `CreateWindowEx`
returning `NULL`, `vkCreateInstance` returning a result other than `0`) is
fatal at once: `prepare` does not return, and every event after the failed
call is a report (`printf`, `fflush`, `exit`, `ERR_EXIT`). -/
theorem tested_failures_are_fatal (env : Env) (p : Program) :
    prepare env p = prepare (dropEnumerationResults env) p ∧
    ∀ pre e post, (prepare env p).log = pre ++ e :: post → failedCall env e = true →
      (prepare env p).isReturned = false ∧ ∀ x ∈ post, isReport x = true := by
  refine ⟨rfl, ?_⟩
  intro pre e post hlog he
  have hf := prepare_failuresAreFatal env p
  cases hr : prepare env p with
  | returned s l =>
    rw [hr] at hf hlog
    simp only [Outcome.log] at hlog
    have hne : failedCall env e = false := hf e (by rw [hlog]; simp)
    rw [he] at hne
    cases hne
  | exited s l =>
    rw [hr] at hf hlog
    simp only [Outcome.log] at hlog
    refine ⟨rfl, ?_⟩
    simp only [FailuresAreFatal] at hf
    rw [hlog] at hf
    exact fatalAfterFailure_split env pre e post hf he

/-- C10, amended, on the machine `envRegisterFails`: `RegisterClassEx` fails,
`prepare` does not return, and the three events after the failed call are
reports. -/
theorem tested_failures_are_fatal_witness :
    failedCall envRegisterFails (Event.RegisterClassEx "Loading...") = true ∧
    (prepare envRegisterFails sampleProgram).isReturned = false ∧
    ∀ x ∈ [Event.printf registerFailedText, Event.fflush, Event.exit 1], isReport x = true :=
  ⟨by decide,
   (tested_failures_are_fatal envRegisterFails sampleProgram).2
      ((prepare envRegisterFails sampleProgram).log.take 15)
      (Event.RegisterClassEx "Loading...")
      [Event.printf registerFailedText, Event.fflush, Event.exit 1]
      (by decide) (by decide)⟩

/-! ## The create-info of `prepare_instance` -/

theorem createInfos_append (a b : List Event) :
    createInfos (a ++ b) = createInfos a ++ createInfos b := by
  induction a with
  | nil => rfl
  | cons e rest ih => cases e <;> simp [createInfos, ih]

theorem createInstance_createInfos (env : Env) (d : Demo) :
    createInfos (createInstance env d).log = [inst_info d] := by
  unfold createInstance ERR_EXIT
  simp only []
  split_ifs <;> simp [Outcome.log, createInfos]

theorem setFirstSlot_getD (array : List (Option String)) (v : Option String) :
    (setFirstSlot array v).getD 0 none = v := by
  cases array with
  | nil => simp [setFirstSlot]
  | cons a rest => simp [setFirstSlot]

/-- C11.  With `validate` true and the validation layer somewhere in the list
of `vkEnumerateInstanceLayerProperties`, `prepare_instance` calls
`vkCreateInstance` once, with a create-info whose `enabledLayerCount` is `1`
and whose first enabled layer name is "VK_LAYER_KHRONOS_validation". -/
theorem prepare_instance_enables_the_validation_layer (env : Env) (d : Demo)
    (hv : d.validate = true)
    (hf : ∃ l ∈ env.instanceLayers.items, l.layerName = "VK_LAYER_KHRONOS_validation") :
    ∃ info, createInfos (prepare_instance env d).log = [info] ∧
      info.enabledLayerCount = 1 ∧
      info.ppEnabledLayerNames.getD 0 none = some "VK_LAYER_KHRONOS_validation" := by
  have hv0 : ({ d with is_minimized := false } : Demo).validate = true := hv
  have hc := checkValidation_of_found env _ hv0 hf
  refine ⟨inst_info
    { ({ d with is_minimized := false } : Demo) with
      enabled_layer_count := 1
      enabled_layers := setFirstSlot d.enabled_layers (some instance_validation_layer) }, ?_, rfl, ?_⟩
  · rw [prepare_instance_of_check_returned env d _ _ hc, Outcome.log_after, createInfos_append,
      createInstance_createInfos]
    simp [createInfos]
  · simp only [inst_info]
    rw [setFirstSlot_getD]
    rfl

/-- C11 on the machine `sampleEnv`, whose second layer is the validation
layer. -/
theorem prepare_instance_enables_the_validation_layer_witness :
    sampleValidating.validate = true ∧
    (∃ l ∈ sampleEnv.instanceLayers.items, l.layerName = "VK_LAYER_KHRONOS_validation") ∧
    ∃ info, createInfos (prepare_instance sampleEnv sampleValidating).log = [info] ∧
      info.enabledLayerCount = 1 ∧
      info.ppEnabledLayerNames.getD 0 none = some "VK_LAYER_KHRONOS_validation" :=
  ⟨rfl, ⟨{ layerName := "VK_LAYER_KHRONOS_validation" }, by decide, rfl⟩,
   prepare_instance_enables_the_validation_layer sampleEnv sampleValidating rfl
     ⟨{ layerName := "VK_LAYER_KHRONOS_validation" }, by decide, rfl⟩⟩

theorem setSlot_outside (slots : Nat) (array : List (Option String)) (i : Nat)
    (v : Option String) (hout : slots ≤ i) : setSlot slots array i v = array := by
  unfold setSlot
  rw [if_neg (by omega)]

/-- The model on the machine `envOneSlot`, where `extension_names` has one slot
and two entries match: the counter reaches `2` and the one slot of the array
holds the name; the second assignment of line 567 is outside the array. -/
theorem scan_beyond_the_slots :
    (prepare_physical_device envOneSlot sampleDemo).state.enabled_extension_count = 2 ∧
    (prepare_physical_device envOneSlot sampleDemo).state.extension_names =
      [some "VK_KHR_swapchain"] := by
  decide

/-! ## The exit test of the validation block -/

/-- C14.  The flag left by the loop over any layer list is non-zero only when
the list is non-empty; hence at the exit test of the validation block a
non-zero `validation_found` implies `total_instance_layers > 0`, the test
`!validation_found || total_instance_layers <= 0` decides as
`!validation_found` alone, and the block with the shorter test has the same
outcome on every machine and every object. -/
theorem validation_exit_test_needs_flag_only (env : Env) (d : Demo) :
    (∀ layers : List VkLayerProperties,
      findValidationLayer instance_validation_layer layers 0 ≠ 0 → 0 < layers.length) ∧
    ((scanInstanceLayers env d).validation_found ≠ 0 →
      0 < (scanInstanceLayers env d).total_instance_layers) ∧
    (((scanInstanceLayers env d).validation_found = 0 ∨
        (scanInstanceLayers env d).total_instance_layers ≤ 0) ↔
      (scanInstanceLayers env d).validation_found = 0) ∧
    checkValidation env d = checkValidationFlagOnly env d := by
  have hscan : (scanInstanceLayers env d).validation_found ≠ 0 →
      0 < (scanInstanceLayers env d).total_instance_layers := by
    unfold scanInstanceLayers
    simp only []
    by_cases hlen : 0 < env.instanceLayers.items.length
    · rw [if_pos hlen]
      intro _
      exact hlen
    · rw [if_neg hlen]
      intro h
      exact absurd rfl h
  have htest : ((scanInstanceLayers env d).validation_found = 0 ∨
        (scanInstanceLayers env d).total_instance_layers ≤ 0) ↔
      (scanInstanceLayers env d).validation_found = 0 := by
    constructor
    · intro h
      rcases h with h | h
      · exact h
      · by_contra hne
        have := hscan hne
        omega
    · intro h
      exact Or.inl h
  refine ⟨?_, hscan, htest, ?_⟩
  · intro layers h
    cases layers with
    | nil => exact absurd rfl h
    | cons l rest => simp
  · unfold checkValidation checkValidationFlagOnly
    simp only []
    split_ifs with hv h1 h2 h2
    · rfl
    · exact absurd (htest.1 h1) h2
    · exact absurd (Or.inl h2) h1
    · rfl
    · rfl

/-- C14 on the machine `sampleEnv`: the flag is set and two layers are
counted. -/
theorem validation_exit_test_needs_flag_only_witness :
    (scanInstanceLayers sampleEnv sampleValidating).validation_found ≠ 0 ∧
    0 < (scanInstanceLayers sampleEnv sampleValidating).total_instance_layers :=
  ⟨by decide, (validation_exit_test_needs_flag_only sampleEnv sampleValidating).2.1 (by decide)⟩

end VkGetNameOfGPU
